import Mathlib

/-!
Verification development for the WriteIQ desktop text helper.

Each definition below is a shallow embedding of a function of the
repository (src/src/models.py, src/src/constants.py, src/src/config.py,
src/src/prompts.py, src/src/services/gemini_service.py, src/src/ui_state.py,
src/src/ui.py, src/src/dialogs.py).  Python strings become Lean `String`,
Python `None` becomes `Option`, Qt signal emissions become lists of events
or explicit result values, and the Qt widget state touched by the
orchestrator becomes an explicit `AppState` record that the embedded
methods transform.
-/

namespace WriteIQ

/-! ## Python string primitives

The repository calls `str.strip()`, `str.lower()` and `str.upper()`;
we model them structurally over the character list so that they reduce
inside the kernel. -/

/-- Model of Python `str.strip()`: drop whitespace from both ends. -/
def pyStrip (s : String) : String :=
  String.mk (((s.data.dropWhile Char.isWhitespace).reverse.dropWhile Char.isWhitespace).reverse)

/-- Model of Python `str.lower()` (ASCII case folding suffices for the codes used here). -/
def pyLower (s : String) : String :=
  String.mk (s.data.map Char.toLower)

/-- Model of Python `str.upper()`. -/
def pyUpper (s : String) : String :=
  String.mk (s.data.map Char.toUpper)

/-- Model of Python `x or y` on strings where `x` may come from an
`Option` (`None` collapses to `""` first): falsy (empty) falls back. -/
def pyOrString (x fallback : String) : String :=
  if x = "" then fallback else x

/-! ## models.py -/

/-- `DEFAULT_MODEL_NAME = "gemini-2.5-flash"` (src/src/models.py). -/
def DEFAULT_MODEL_NAME : String := "gemini-2.5-flash"

/-- The `Language` enum of src/src/models.py. -/
inductive Language
  | ENGLISH
  | CZECH
  | GERMAN
  | FRENCH
  | SPANISH
  | ITALIAN
  | POLISH
  | PORTUGUESE
  | RUSSIAN
  | JAPANESE
  | CHINESE
deriving DecidableEq, Repr

/-- The `code` member of each `Language` value. -/
def Language.code : Language → String
  | .ENGLISH => "en"
  | .CZECH => "cs"
  | .GERMAN => "de"
  | .FRENCH => "fr"
  | .SPANISH => "es"
  | .ITALIAN => "it"
  | .POLISH => "pl"
  | .PORTUGUESE => "pt"
  | .RUSSIAN => "ru"
  | .JAPANESE => "ja"
  | .CHINESE => "zh"

/-- The `label` member of each `Language` value. -/
def Language.label : Language → String
  | .ENGLISH => "English"
  | .CZECH => "Czech"
  | .GERMAN => "German"
  | .FRENCH => "French"
  | .SPANISH => "Spanish"
  | .ITALIAN => "Italian"
  | .POLISH => "Polish"
  | .PORTUGUESE => "Portuguese"
  | .RUSSIAN => "Russian"
  | .JAPANESE => "Japanese"
  | .CHINESE => "Chinese"

/-- Iteration order of `for language in cls` over the `Language` enum. -/
def languageList : List Language :=
  [.ENGLISH, .CZECH, .GERMAN, .FRENCH, .SPANISH, .ITALIAN,
   .POLISH, .PORTUGUESE, .RUSSIAN, .JAPANESE, .CHINESE]

/-- `Language.from_code` (src/src/models.py lines 37-43): normalize
`(code or "").lower()`, return the first enum member whose code matches,
falling back to `ENGLISH`. -/
def Language.from_code (code : Option String) : Language :=
  let normalized := pyLower (code.getD "")
  (languageList.find? (fun language => language.code == normalized)).getD .ENGLISH

/-- The `UserSettings` dataclass (src/src/models.py). -/
structure UserSettings where
  default_language : String
  model_name : String
deriving DecidableEq, Repr

/-- The dataclass defaults of `UserSettings` (`default_language=Language.ENGLISH.code`,
`model_name=DEFAULT_MODEL_NAME`). -/
def defaultUserSettings : UserSettings :=
  { default_language := Language.ENGLISH.code, model_name := DEFAULT_MODEL_NAME }

/-- The `AppConfig` dataclass (src/src/models.py). -/
structure AppConfig where
  api_key : String
  settings : UserSettings
deriving DecidableEq, Repr

/-- The dataclass defaults of `AppConfig` (`api_key=""`, fresh `UserSettings`). -/
def defaultAppConfig : AppConfig :=
  { api_key := "", settings := defaultUserSettings }

/-- A JSON dictionary as read for `UserSettings.from_dict`: each known key
either present (`some`) or absent (`none`). -/
structure SettingsDict where
  default_language : Option String
  model_name : Option String
deriving DecidableEq, Repr

/-- A JSON dictionary as read for `AppConfig.from_dict`. -/
structure ConfigDict where
  api_key : Option String
  settings : Option SettingsDict
deriving DecidableEq, Repr

/-- `UserSettings.from_dict` (src/src/models.py lines 54-61): `None` (or a
falsy dict, whose per-key `get` fallbacks yield the same record) gives the
defaults; otherwise each key falls back to its dataclass default. -/
def UserSettings.fromDict : Option SettingsDict → UserSettings
  | none => defaultUserSettings
  | some data =>
    { default_language := data.default_language.getD defaultUserSettings.default_language,
      model_name := data.model_name.getD defaultUserSettings.model_name }

/-- `UserSettings.to_dict` (src/src/models.py lines 63-67): both keys written. -/
def UserSettings.toDict (s : UserSettings) : SettingsDict :=
  { default_language := some s.default_language, model_name := some s.model_name }

/-- `AppConfig.from_dict` (src/src/models.py lines 78-83). -/
def AppConfig.fromDict : Option ConfigDict → AppConfig
  | none => defaultAppConfig
  | some data =>
    { api_key := data.api_key.getD "",
      settings := UserSettings.fromDict data.settings }

/-- `AppConfig.to_dict` (src/src/models.py lines 85-86). -/
def AppConfig.toDict (c : AppConfig) : ConfigDict :=
  { api_key := some c.api_key, settings := some c.settings.toDict }

/-! ## constants.py -/

/-- `DEFAULT_LANGUAGE_CODE = Language.ENGLISH.code` (src/src/constants.py). -/
def DEFAULT_LANGUAGE_CODE : String := Language.ENGLISH.code

/-- The user-data codes of the language combo box, populated from
`LANGUAGE_OPTIONS` (src/src/constants.py line 10, src/src/ui.py lines 141-142). -/
def comboCodes : List String := languageList.map Language.code

/-- `MODEL_OPTIONS` (src/src/constants.py lines 13-16): `(name, label)` pairs. -/
def MODEL_OPTIONS : List (String × String) :=
  [(DEFAULT_MODEL_NAME, "Gemini 2.5 Flash (speed)"),
   ("gemini-1.5-pro", "Gemini 1.5 Pro (quality)")]

/-! ## config.py

`_read_config_file` performs file IO: a missing, unreadable or corrupt file
yields `None`, a parsed JSON object yields a dictionary.  We take that
outcome as the input of `loadConfig`. -/

/-- `load_config` (src/src/config.py lines 26-31), with the result of
`_read_config_file` passed explicitly. -/
def loadConfig (fileData : Option ConfigDict) : AppConfig :=
  AppConfig.fromDict fileData

/-! ## prompts.py -/

/-- `build_grammar_prompt` (src/src/prompts.py lines 8-17): the fixed
instruction template (three adjacent literals in the source) with the text
appended verbatim. -/
def build_grammar_prompt (text : String) : String :=
  ("You are an expert proofreader. " ++
   "Correct grammar, punctuation, and spelling while preserving the original tone. " ++
   "Return only the corrected text without explanations.\n\n") ++
  text

/-- `build_translation_prompt` (src/src/prompts.py lines 19-28): the
instruction template parameterized by the target language's label and
upper-cased code, with the text appended verbatim. -/
def build_translation_prompt (text : String) (target_language : Language) : String :=
  ("Translate the following text into " ++ target_language.label ++
   " (" ++ pyUpper target_language.code ++ "). " ++
   "Detect the source language automatically, preserve tone, and keep formatting when possible. " ++
   "Return only the translated text.\n\n") ++
  text

/-! ## services/gemini_service.py

The external `google.generativeai` library is the opaque collaborator.
Its observable behaviour towards `GeminiStreamWorker.run` is: a sequence
of text chunks successfully produced by the stream, followed optionally
by a raised error (with its message).  Client construction
(`genai.configure` + `genai.GenerativeModel`) is modelled by an oracle
telling, per key and model, whether it raises and with which message. -/

/-- The `GeminiService` object as far as the orchestrator observes it:
the key and model it was successfully constructed with. -/
structure GeminiService where
  api_key : String
  model_name : String
deriving DecidableEq, Repr

/-- `GeminiService.__init__` together with `_configure_client`
(src/src/services/gemini_service.py lines 17-20 and 77-81): an empty key
raises `GeminiAPIError("API key is empty.")` deterministically; otherwise
the external library may raise (oracle `genai`), else the service holds
the key and model.  `Except.error` carries `str(exc)`. -/
def mkGeminiService (genai : String → String → Option String)
    (api_key model_name : String) : Except String GeminiService :=
  if api_key = "" then .error "API key is empty."
  else
    match genai api_key model_name with
    | some message => .error message
    | none => .ok { api_key := api_key, model_name := model_name }

/-- One complete behaviour of the external stream inside
`GeminiStreamWorker.run`: the chunks the `for` loop receives before the
stream either ends normally (`error = none`) or raises (`error = some msg`,
the message being `str(exc)`). -/
structure StreamBehavior where
  chunks : List String
  error : Option String
deriving DecidableEq, Repr

/-- The Qt signals a `GeminiStreamWorker` emits: `partial` (here `chunk`,
since `partial` is a Lean keyword), `error` and `finished`. -/
inductive WorkerEvent
  | chunk (text : String)
  | error (message : String)
  | finished
deriving DecidableEq, Repr

/-- The error events produced by the `except` clause of
`GeminiStreamWorker.run`: one per raised error, none otherwise. -/
def errEvents : Option String → List WorkerEvent
  | some message => [.error message]
  | none => []

/-- `GeminiStreamWorker.run` (src/src/services/gemini_service.py lines
36-44) as the trace of emitted signals: `try` emits one `partial` per
received chunk in order, `except` emits one `error` carrying the message,
and `finally` emits `finished`. -/
def GeminiStreamWorker.run (b : StreamBehavior) : List WorkerEvent :=
  b.chunks.map .chunk ++ errEvents b.error ++ [.finished]

/-- Extract the payload of a `partial` signal, if the event is one. -/
def chunkMsg : WorkerEvent → Option String
  | .chunk text => some text
  | _ => none

/-! ## ui_state.py -/

/-- The widget state owned by `UIStateManager` (src/src/ui_state.py):
the two action buttons' enabled flags, the copy button's enabled flag,
the button captions and the status label text. -/
structure UIState where
  submit_enabled : Bool
  clear_enabled : Bool
  copy_enabled : Bool
  submit_text : String
  copy_text : String
  status : String
deriving DecidableEq, Repr

/-- The default caption of the submit button, captured by
`UIStateManager.__init__` (src/src/ui.py line 173). -/
def SUBMIT_DEFAULT_TEXT : String := "▶ Process"

/-- The default caption of the copy button (src/src/ui.py line 159). -/
def COPY_DEFAULT_TEXT : String := "📋 Copy"

/-- `UIStateManager.set_status` (src/src/ui_state.py lines 20-21). -/
def UIState.set_status (u : UIState) (message : String) : UIState :=
  { u with status := message }

/-- `UIStateManager.start_processing` (src/src/ui_state.py lines 23-27). -/
def UIState.start_processing (u : UIState) : UIState :=
  { u with submit_text := "⏳ Generating…",
           submit_enabled := false, clear_enabled := false, copy_enabled := false }

/-- `UIStateManager.set_ready` (src/src/ui_state.py lines 29-35). -/
def UIState.set_ready (u : UIState) (message : String) (copy_available : Bool) : UIState :=
  { u with submit_text := SUBMIT_DEFAULT_TEXT,
           submit_enabled := true, clear_enabled := true,
           copy_text := COPY_DEFAULT_TEXT, copy_enabled := copy_available,
           status := message }

/-- `UIStateManager.reset_copy_button` (src/src/ui_state.py lines 44-46). -/
def UIState.reset_copy_button (u : UIState) (copy_available : Bool) : UIState :=
  { u with copy_text := COPY_DEFAULT_TEXT, copy_enabled := copy_available }

/-! ## ui.py -/

/-- The `AppMode` enum (src/src/ui.py lines 41-43). -/
inductive AppMode
  | GRAMMAR
  | TRANSLATE
deriving DecidableEq, Repr

/-- A `GeminiStreamWorker` as the orchestrator holds it: whether
`isRunning()` returns true, and the prompt it was created for. -/
structure Worker where
  running : Bool
  prompt : String
deriving DecidableEq, Repr

/-- The mutable state of `TextHelperApp` that the embedded methods touch.
In the source `self.settings` and `self.config.settings` alias the same
`UserSettings` object (`self.settings = config.settings`, src/src/ui.py
line 54), so a single `settings` field models both; `config_api_key`
models `self.config.api_key`, which is distinct from `self.api_key`. -/
structure AppState where
  config_api_key : String
  settings : UserSettings
  api_key : String
  gemini_service : Option GeminiService
  worker : Option Worker
  last_error_message : Option String
  mode : AppMode
  lang_selection : String
  input_text : String
  output_text : String
  ui : UIState
deriving DecidableEq, Repr

/-- `self.worker and self.worker.isRunning()` (src/src/ui.py line 411). -/
def workerRunning (st : AppState) : Bool :=
  match st.worker with
  | some w => w.running
  | none => false

/-- `TextHelperApp._set_language_selection` (src/src/ui.py lines 201-208):
select the combo entry with exactly this code; if `findData` fails, fall
back to the entry for `DEFAULT_LANGUAGE_CODE`; if that also fails (dead in
practice, since "en" is always in the combo), leave the selection alone. -/
def setLanguageSelection (current : String) (language_code : String) : String :=
  if language_code ∈ comboCodes then language_code
  else if DEFAULT_LANGUAGE_CODE ∈ comboCodes then DEFAULT_LANGUAGE_CODE
  else current

/-- `TextHelperApp._activate_service` (src/src/ui.py lines 241-253): on a
`GeminiAPIError` from construction, clear the service reference and set the
status to the ⚠-prefixed message, returning `False`; on success store the
service, the key and the model, returning `True`. -/
def activateService (genai : String → String → Option String)
    (st : AppState) (api_key model_name : String) : AppState × Bool :=
  match mkGeminiService genai api_key model_name with
  | .error exc =>
    ({ st with gemini_service := none,
               ui := st.ui.set_status ("⚠️ " ++ exc) }, false)
  | .ok service =>
    ({ st with gemini_service := some service,
               api_key := api_key,
               settings := { st.settings with model_name := model_name } }, true)

/-- The payload dict produced by `SettingsDialog.get_settings` and consumed
by `TextHelperApp._apply_settings`. -/
structure SettingsPayload where
  api_key : String
  default_language : String
  model_name : String
deriving DecidableEq, Repr

/-- The tail of `TextHelperApp._apply_settings` (src/src/ui.py lines
269-277) once activation succeeded or was unnecessary: update the (shared)
settings record, the language selection, `config.api_key`, call
`save_config` and set the status. -/
def finishApplySettings (st : AppState) (payload : SettingsPayload) : AppState :=
  let st := { st with
    settings := { default_language := payload.default_language,
                  model_name := payload.model_name },
    lang_selection := setLanguageSelection st.lang_selection payload.default_language }
  let st := { st with config_api_key := payload.api_key }
  { st with ui := st.ui.set_status "Settings saved." }

/-- `TextHelperApp._apply_settings` (src/src/ui.py lines 255-282).  The
returned `Bool` records whether `save_config` was invoked.  When the key
or model changed, or no client is active, activation is attempted first;
its failure aborts (a blocking dialog is shown, which has no model state). -/
def applySettings (genai : String → String → Option String)
    (st : AppState) (payload : SettingsPayload) : AppState × Bool :=
  if payload.api_key ≠ st.api_key
      ∨ payload.model_name ≠ st.settings.model_name
      ∨ st.gemini_service = none then
    match activateService genai st payload.api_key payload.model_name with
    | (st1, true) => (finishApplySettings st1 payload, true)
    | (st1, false) => (st1, false)
  else
    (finishApplySettings st payload, true)

/-- `TextHelperApp._build_prompt` (src/src/ui.py lines 385-390); in
translate mode the target is `Language.from_code` of the combo's current
data. -/
def buildPrompt (mode : AppMode) (text : String) (lang_selection : String) : String :=
  match mode with
  | .GRAMMAR => build_grammar_prompt text
  | .TRANSLATE => build_translation_prompt text (Language.from_code (some lang_selection))

/-- `TextHelperApp.reset_copy_btn` (src/src/ui.py lines 494-497): the copy
button is re-enabled iff the stripped output text is non-empty. -/
def resetCopyBtn (st : AppState) : AppState :=
  let has_text := pyStrip st.output_text != ""
  { st with ui := st.ui.reset_copy_button has_text }

/-- `TextHelperApp.on_submit` (src/src/ui.py lines 398-436).  The second
component is `some prompt` exactly when the API client was invoked
(`gemini_service.get_stream_worker(prompt)`) and a worker created and
started; it is `none` on every rejection path (missing client, busy
worker, empty input). -/
def onSubmit (st0 : AppState) : AppState × Option String :=
  let st := { st0 with last_error_message := none }
  if st.gemini_service = none then (st, none)
  else if workerRunning st then (st, none)
  else if pyStrip st.input_text = "" then
    (resetCopyBtn { st with output_text := "⚠️ No input text." }, none)
  else
    let text := pyStrip st.input_text
    let prompt := buildPrompt st.mode text st.lang_selection
    let st := { st with ui := st.ui.start_processing, output_text := "" }
    let st := { st with ui := st.ui.set_status "Working with Gemini…" }
    ({ st with worker := some { running := true, prompt := prompt } }, some prompt)

/-- `TextHelperApp.update_output` (src/src/ui.py lines 438-451): on the
first chunk (output still empty) set the streaming status; always append
the chunk at the end of the output. -/
def updateOutput (st : AppState) (text : String) : AppState :=
  let first_chunk := st.output_text == ""
  let st := if first_chunk then { st with ui := st.ui.set_status "Streaming response…" } else st
  { st with output_text := st.output_text ++ text }

/-- `TextHelperApp.on_worker_error` (src/src/ui.py lines 453-461): record
the message, set the ⚠-status, and write the ⚠-prefixed message into the
output (replacing a blank output; `QTextEdit.append` of a string that
itself starts with a newline adds a paragraph break, modelled as a
newline, before it). -/
def onWorkerError (st : AppState) (message : String) : AppState :=
  let st := { st with last_error_message := some message }
  let st := { st with ui := st.ui.set_status ("⚠️ " ++ message) }
  if pyStrip st.output_text = "" then
    { st with output_text := "⚠️ " ++ message }
  else
    { st with output_text := st.output_text ++ "\n" ++ "\n⚠️ " ++ message }

/-- `TextHelperApp.on_finished` (src/src/ui.py lines 463-480): drop the
worker reference, derive the terminal status from the recorded error
message, else from whether the stripped output is non-empty, re-enable the
controls with copy availability equal to that emptiness check, and clear
the recorded error. -/
def onFinished (st : AppState) : AppState :=
  let st := { st with worker := none }
  let has_output := pyStrip st.output_text != ""
  let status_message :=
    match st.last_error_message with
    | some message => "⚠️ " ++ message
    | none => if has_output then "Completed." else "No response received."
  let st := { st with ui := st.ui.set_ready status_message has_output }
  { st with last_error_message := none }

/-- Deliver a list of streamed chunks to the output panel, as the wired
`partial` signal does chunk by chunk. -/
def processChunks (chunks : List String) (st : AppState) : AppState :=
  chunks.foldl updateOutput st

/-- Concatenation of streamed chunks. -/
def concatChunks (chunks : List String) : String :=
  chunks.foldl (· ++ ·) ""

/-! ## dialogs.py -/

/-- `self._initial_api_key = api_key.strip()` in `SettingsDialog.__init__`
(src/src/dialogs.py line 42). -/
def dialogInitialKey (api_key : String) : String := pyStrip api_key

/-- `SettingsDialog.get_settings` (src/src/dialogs.py lines 113-118): the
key input stripped, and the combo data with Python `or` fallbacks
(`None` collapses to `""` first). -/
def getSettings (api_key_input : String) (lang_data model_data : Option String) :
    SettingsPayload :=
  { api_key := pyStrip api_key_input,
    default_language := pyOrString (lang_data.getD "") DEFAULT_LANGUAGE_CODE,
    model_name := pyOrString (model_data.getD "") ((MODEL_OPTIONS.headD ("", "")).1) }

/-- The observable outcome of one click on the settings dialog's Save
button: a missing-key warning, an immediate accept with the final
settings, or a `validation_requested` emission with the payload. -/
inductive SaveAction
  | warnMissingKey
  | accept (payload : SettingsPayload)
  | requestValidation (payload : SettingsPayload)
deriving DecidableEq, Repr

/-- `SettingsDialog._on_save_clicked` (src/src/dialogs.py lines 141-165):
empty trimmed key warns; a trimmed key equal to the stored initial key
accepts immediately (the inner `if api_key:` re-check is kept, though it
cannot fail there); otherwise the dialog goes busy and emits
`validation_requested` with the payload. -/
def onSaveClicked (initial_api_key : String) (api_key_input : String)
    (lang_data model_data : Option String) : SaveAction :=
  let settings := getSettings api_key_input lang_data model_data
  if settings.api_key = "" then .warnMissingKey
  else if settings.api_key = initial_api_key then
    if settings.api_key ≠ "" then .accept settings
    else .requestValidation settings
  else .requestValidation settings

/-! ## Helper lemmas -/

/-- Appending the empty string on the right is the identity. -/
lemma strAppend_empty (s : String) : s ++ "" = s := by
  apply String.ext
  simp [String.data_append]

/-- Appending the empty string on the left is the identity. -/
lemma strEmpty_append (s : String) : "" ++ s = s := by
  apply String.ext
  simp [String.data_append]

/-- String append is associative. -/
lemma strAppend_assoc (a b c : String) : a ++ b ++ c = a ++ (b ++ c) := by
  apply String.ext
  simp [String.data_append]

/-- Folding string append from any accumulator splits off the accumulator. -/
lemma foldl_append_str (cs : List String) : ∀ s : String,
    cs.foldl (· ++ ·) s = s ++ concatChunks cs := by
  induction cs with
  | nil => intro s; exact (strAppend_empty s).symm
  | cons c cs ih =>
    intro s
    show cs.foldl (· ++ ·) (s ++ c) = s ++ concatChunks (c :: cs)
    have hc : concatChunks (c :: cs) = c ++ concatChunks cs := by
      show cs.foldl (· ++ ·) ("" ++ c) = c ++ concatChunks cs
      rw [strEmpty_append, ih c]
    rw [ih (s ++ c), strAppend_assoc, hc]

/-- Splitting a cons off a chunk concatenation. -/
lemma concatChunks_cons (c : String) (cs : List String) :
    concatChunks (c :: cs) = c ++ concatChunks cs := by
  show cs.foldl (· ++ ·) ("" ++ c) = c ++ concatChunks cs
  rw [strEmpty_append, foldl_append_str cs c]

/-- `update_output` appends the chunk to the output text. -/
lemma updateOutput_output (st : AppState) (t : String) :
    (updateOutput st t).output_text = st.output_text ++ t := by
  simp only [updateOutput]
  split <;> rfl

/-- `update_output` does not touch the recorded error message. -/
lemma updateOutput_error (st : AppState) (t : String) :
    (updateOutput st t).last_error_message = st.last_error_message := by
  simp only [updateOutput]
  split <;> rfl

/-- Delivering chunks appends their concatenation to the output text. -/
lemma processChunks_output (cs : List String) (st : AppState) :
    (processChunks cs st).output_text = st.output_text ++ concatChunks cs := by
  induction cs generalizing st with
  | nil => exact (strAppend_empty _).symm
  | cons c cs ih =>
    show (processChunks cs (updateOutput st c)).output_text = _
    rw [ih, updateOutput_output, strAppend_assoc, concatChunks_cons]

/-- Delivering chunks does not touch the recorded error message. -/
lemma processChunks_error (cs : List String) (st : AppState) :
    (processChunks cs st).last_error_message = st.last_error_message := by
  induction cs generalizing st with
  | nil => rfl
  | cons c cs ih =>
    show (processChunks cs (updateOutput st c)).last_error_message = _
    rw [ih, updateOutput_error]

/-- The terminal status of `on_finished`: the recorded error message with a
⚠ marker takes precedence; else the output decides between "Completed." and
"No response received." by whether it strips to empty. -/
lemma onFinished_status (st : AppState) :
    (onFinished st).ui.status =
      match st.last_error_message with
      | some message => "⚠️ " ++ message
      | none =>
        if pyStrip st.output_text = "" then "No response received." else "Completed." := by
  cases hl : st.last_error_message with
  | some m => simp [onFinished, UIState.set_ready, hl]
  | none =>
    simp only [onFinished, UIState.set_ready, hl]
    by_cases h : pyStrip st.output_text = "" <;> simp [h]

/-! ## Concrete states shared by witnesses and counterexamples -/

/-- A ready main-window widget state. -/
def sampleUI : UIState :=
  { submit_enabled := true, clear_enabled := true, copy_enabled := false,
    submit_text := "▶ Process", copy_text := "📋 Copy", status := "Ready." }

/-- A concrete orchestrator state: active client, no running worker,
Czech default language, empty editors. -/
def sampleState : AppState :=
  { config_api_key := "old-key",
    settings := { default_language := "cs", model_name := "gemini-2.5-flash" },
    api_key := "old-key",
    gemini_service := some { api_key := "old-key", model_name := "gemini-2.5-flash" },
    worker := none, last_error_message := none,
    mode := .GRAMMAR, lang_selection := "cs",
    input_text := "", output_text := "", ui := sampleUI }

/-- The sample state with whitespace-only input. -/
def c2State : AppState := { sampleState with input_text := " \t " }

/-- The sample state with a running stream worker. -/
def c5State : AppState := { sampleState with worker := some { running := true, prompt := "p" } }

/-- A settings payload that changes key, language and model. -/
def c3Payload : SettingsPayload :=
  { api_key := "new-key", default_language := "fr", model_name := "gemini-1.5-pro" }

/-- The sample state after a worker error was recorded mid-stream. -/
def c6ErrState : AppState :=
  { sampleState with last_error_message := some "boom", output_text := "some out" }

/-- Filtering the `partial` payloads out of a pure chunk-event list gives
back the chunks. -/
lemma filterMap_chunkMsg_map (chunks : List String) :
    (chunks.map WorkerEvent.chunk).filterMap chunkMsg = chunks := by
  induction chunks with
  | nil => rfl
  | cons c cs ih => simp [chunkMsg, ih]

/-- The composed form of `filterMap_chunkMsg_map` produced by
`List.filterMap_map`. -/
lemma filterMap_chunkMsg_comp (chunks : List String) :
    List.filterMap (chunkMsg ∘ WorkerEvent.chunk) chunks = chunks := by
  induction chunks with
  | nil => rfl
  | cons c cs ih => simp [Function.comp, chunkMsg, ih]

/-! ## Claims -/

/-- Claim C1: for every behaviour of the external streaming client,
`GeminiStreamWorker.run` emits `partial` events exactly in the order the
client produced the chunks; if the stream raises an error it emits exactly
one `error` event and no `partial` events after it; and in all cases it
emits exactly one terminal `finished` event, strictly after all `partial`
and `error` events. -/
theorem C1_stream_worker_event_protocol (b : StreamBehavior) :
    (GeminiStreamWorker.run b).filterMap chunkMsg = b.chunks
    ∧ (∃ pre, GeminiStreamWorker.run b = pre ++ [WorkerEvent.finished]
        ∧ WorkerEvent.finished ∉ pre)
    ∧ (match b.error with
       | none => ∀ m, WorkerEvent.error m ∉ GeminiStreamWorker.run b
       | some m =>
         ∃ pre post, GeminiStreamWorker.run b = pre ++ WorkerEvent.error m :: post
           ∧ (∀ t, WorkerEvent.chunk t ∉ post)
           ∧ (∀ m2, WorkerEvent.error m2 ∉ pre)
           ∧ (∀ m2, WorkerEvent.error m2 ∉ post)) := by
  obtain ⟨chunks, err⟩ := b
  refine ⟨?_, ⟨chunks.map .chunk ++ errEvents err, ?_, ?_⟩, ?_⟩
  · cases err <;>
      simp [GeminiStreamWorker.run, errEvents, chunkMsg, filterMap_chunkMsg_map,
        filterMap_chunkMsg_comp]
  · simp [GeminiStreamWorker.run, List.append_assoc]
  · cases err <;> simp [errEvents]
  · cases err with
    | none =>
      intro m
      simp [GeminiStreamWorker.run, errEvents]
    | some msg =>
      refine ⟨chunks.map .chunk, [.finished], ?_, ?_, ?_, ?_⟩
      · simp [GeminiStreamWorker.run, errEvents]
      · intro t
        simp
      · intro m2
        simp
      · intro m2
        simp

/-- Claim C2: submitting with an active client, no running worker and
whitespace-only input never invokes the API client (no worker created),
writes exactly the literal warning into the output panel, and leaves the
copy affordance enabled because the output is non-empty. -/
theorem C2_empty_input_submit (st : AppState)
    (h1 : st.gemini_service ≠ none)
    (h2 : workerRunning st = false)
    (h3 : pyStrip st.input_text = "") :
    (onSubmit st).2 = none
    ∧ (onSubmit st).1.output_text = "⚠️ No input text."
    ∧ (onSubmit st).1.ui.copy_enabled = true
    ∧ (onSubmit st).1.worker = st.worker := by
  have h1' : ¬(({ st with last_error_message := none } : AppState).gemini_service = none) := h1
  have h2' : workerRunning { st with last_error_message := none } = false := h2
  have h3' : pyStrip ({ st with last_error_message := none } : AppState).input_text = "" := h3
  have key : onSubmit st =
      (resetCopyBtn { st with last_error_message := none, output_text := "⚠️ No input text." },
       none) := by
    simp [onSubmit, h1', h2', h3']
  rw [key]
  refine ⟨rfl, rfl, ?_, rfl⟩
  show (pyStrip "⚠️ No input text." != "") = true
  decide

/-- Claim C2 witness at a concrete state. -/
theorem C2_empty_input_submit_witness :
    (onSubmit c2State).2 = none
    ∧ (onSubmit c2State).1.output_text = "⚠️ No input text."
    ∧ (onSubmit c2State).1.ui.copy_enabled = true
    ∧ (onSubmit c2State).1.worker = c2State.worker :=
  C2_empty_input_submit c2State (by decide) (by decide) (by decide)

/-- Claim C3, amended: when activation is attempted and fails,
`_apply_settings` leaves `config.api_key`, `settings.default_language` and
`settings.model_name` unchanged and never calls `save_config`; however the
status is set to the ⚠-prefixed activation error message and the client
reference is cleared, so the status is not left untouched. -/
theorem C3_settings_abort_amended (genai : String → String → Option String)
    (st : AppState) (payload : SettingsPayload) (msg : String)
    (h1 : payload.api_key ≠ st.api_key ∨ payload.model_name ≠ st.settings.model_name
          ∨ st.gemini_service = none)
    (h2 : mkGeminiService genai payload.api_key payload.model_name = .error msg) :
    applySettings genai st payload =
      ({ st with gemini_service := none, ui := st.ui.set_status ("⚠️ " ++ msg) }, false) := by
  unfold applySettings activateService
  rw [if_pos h1, h2]

/-- Claim C3 witness: a concrete aborted settings application, keeping the
prior key, language, model, with persistence not invoked. -/
theorem C3_settings_abort_amended_witness :
    applySettings (fun _ _ => some "boom") sampleState c3Payload =
      ({ sampleState with gemini_service := none,
                          ui := sampleState.ui.set_status ("⚠️ " ++ "boom") }, false) :=
  C3_settings_abort_amended (fun _ _ => some "boom") sampleState c3Payload "boom"
    (by decide) rfl

/-- Claim C3 counterexample: the claim says the status is left untouched,
but a failing activation sets it to the ⚠-prefixed error message. -/
theorem C3_status_not_untouched :
    (applySettings (fun _ _ => some "boom") sampleState c3Payload).2 = false
    ∧ (applySettings (fun _ _ => some "boom") sampleState c3Payload).1.ui.status = "⚠️ boom"
    ∧ sampleState.ui.status = "Ready."
    ∧ ("⚠️ boom" : String) ≠ "Ready." := by
  refine ⟨rfl, rfl, rfl, by decide⟩

/-- Claim C4, amended: when client construction fails, `_activate_service`
leaves the client reference null, leaves the stored API key unchanged (it
is not reset to the empty string), leaves `settings.model_name` at its
prior value, sets the status to the ⚠-prefixed message and returns
failure. -/
theorem C4_activate_failure_amended (genai : String → String → Option String)
    (st : AppState) (api_key model_name msg : String)
    (h : mkGeminiService genai api_key model_name = .error msg) :
    activateService genai st api_key model_name =
      ({ st with gemini_service := none, ui := st.ui.set_status ("⚠️ " ++ msg) }, false) := by
  unfold activateService
  rw [h]

/-- Claim C4 witness at a concrete failing construction. -/
theorem C4_activate_failure_amended_witness :
    activateService (fun _ _ => some "boom") sampleState "new-key" "model-x" =
      ({ sampleState with gemini_service := none,
                          ui := sampleState.ui.set_status ("⚠️ " ++ "boom") }, false) :=
  C4_activate_failure_amended (fun _ _ => some "boom") sampleState "new-key" "model-x" "boom" rfl

/-- Claim C4 counterexample: the claim says failure resets the stored API
key to the empty string, but the key keeps its prior value. -/
theorem C4_key_not_reset :
    (activateService (fun _ _ => some "boom") sampleState "new-key" "model-x").2 = false
    ∧ (activateService (fun _ _ => some "boom") sampleState "new-key" "model-x").1.api_key
        = "old-key"
    ∧ ("old-key" : String) ≠ "" := by
  refine ⟨rfl, rfl, by decide⟩

/-- Claim C5: submitting while the current worker is running creates no new
worker, leaves the worker reference untouched, and changes nothing else
(beyond clearing the recorded error message, which `on_submit` always does
first). -/
theorem C5_busy_submit_rejected (st : AppState) (h : workerRunning st = true) :
    onSubmit st = ({ st with last_error_message := none }, none) := by
  have h' : workerRunning { st with last_error_message := none } = true := h
  simp [onSubmit, h']

/-- Claim C5 witness at a concrete busy state. -/
theorem C5_busy_submit_rejected_witness :
    onSubmit c5State = ({ c5State with last_error_message := none }, none) :=
  C5_busy_submit_rejected c5State (by decide)

/-- Claim C6, amended: delivering chunks into an output cleared at
submission accumulates exactly their concatenation, and the terminal status
priority is: the ⚠-prefixed recorded error message if one occurred, else
"Completed." if the output strips to non-empty (not merely non-empty), else
"No response received.". -/
theorem C6_stream_completion (cs : List String) (st st2 : AppState)
    (h1 : st.output_text = "") (h2 : st.last_error_message = none) :
    (processChunks cs st).output_text = concatChunks cs
    ∧ (onFinished (processChunks cs st)).ui.status =
        (if pyStrip (concatChunks cs) = "" then "No response received." else "Completed.")
    ∧ (onFinished st2).ui.status =
        (match st2.last_error_message with
         | some message => "⚠️ " ++ message
         | none =>
           if pyStrip st2.output_text = "" then "No response received." else "Completed.") := by
  have hout : (processChunks cs st).output_text = concatChunks cs := by
    rw [processChunks_output, h1, strEmpty_append]
  refine ⟨hout, ?_, onFinished_status st2⟩
  rw [onFinished_status]
  simp [processChunks_error, h2, hout]

/-- Claim C6 witness: the spec's own example chunks, and a concrete state
with a recorded error taking priority. -/
theorem C6_stream_completion_witness :
    (processChunks ["Hello ", "world!"] sampleState).output_text
        = concatChunks ["Hello ", "world!"]
    ∧ (onFinished (processChunks ["Hello ", "world!"] sampleState)).ui.status =
        (if pyStrip (concatChunks ["Hello ", "world!"]) = "" then "No response received."
         else "Completed.")
    ∧ (onFinished c6ErrState).ui.status = "⚠️ " ++ "boom" :=
  C6_stream_completion ["Hello ", "world!"] sampleState c6ErrState rfl rfl

/-- Claim C6 counterexample: a single whitespace chunk gives a non-empty
output, yet the terminal status is "No response received.", not
"Completed." as the claim (keyed on mere non-emptiness) requires. -/
theorem C6_whitespace_output_not_completed :
    (processChunks [" "] sampleState).output_text = " "
    ∧ (" " : String) ≠ ""
    ∧ (onFinished (processChunks [" "] sampleState)).ui.status = "No response received."
    ∧ ("No response received." : String) ≠ "Completed." := by
  refine ⟨rfl, by decide, rfl, by decide⟩

/-- Claim C7: for every mode, input text, and selected target language, the
built prompt ends with the verbatim input text as its suffix. -/
theorem C7_prompt_ends_with_input (mode : AppMode) (text lang_selection : String) :
    ∃ pre, buildPrompt mode text lang_selection = pre ++ text := by
  cases mode
  · exact ⟨_, rfl⟩
  · exact ⟨_, rfl⟩

/-- Claim C8: a language code not among the supported combo codes resolves
the selection to the configured default code, and `Language.from_code` is
total, falling back to `ENGLISH` on any unmatched code and on `None`. -/
theorem C8_language_fallback (current code : String) (c : Option String)
    (h1 : code ∉ comboCodes)
    (h2 : ∀ l ∈ languageList, l.code ≠ pyLower (c.getD "")) :
    setLanguageSelection current code = DEFAULT_LANGUAGE_CODE
    ∧ Language.from_code c = Language.ENGLISH
    ∧ Language.from_code none = Language.ENGLISH := by
  refine ⟨?_, ?_, by decide⟩
  · unfold setLanguageSelection
    rw [if_neg h1, if_pos (by decide)]
  · show (languageList.find? (fun language => language.code == pyLower (c.getD ""))).getD
      .ENGLISH = .ENGLISH
    have hnone : languageList.find? (fun language => language.code == pyLower (c.getD ""))
        = none := by
      rw [List.find?_eq_none]
      intro l hl
      simpa using h2 l hl
    rw [hnone]
    rfl

/-- Claim C8 witness at concrete unsupported codes. -/
theorem C8_language_fallback_witness :
    setLanguageSelection "cs" "xx" = DEFAULT_LANGUAGE_CODE
    ∧ Language.from_code (some "klingon") = Language.ENGLISH
    ∧ Language.from_code none = Language.ENGLISH :=
  C8_language_fallback "cs" "xx" (some "klingon") (by decide) (by decide)

/-- Claim C9: if the trimmed entered key is non-empty and equals the
(stripped) key the dialog was opened with, Save accepts immediately with
the payload and never emits a validation request — even when the selected
model or language differs. -/
theorem C9_same_key_accepts (opened_key api_key_input : String)
    (lang_data model_data : Option String)
    (h1 : pyStrip api_key_input ≠ "")
    (h2 : pyStrip api_key_input = dialogInitialKey opened_key) :
    onSaveClicked (dialogInitialKey opened_key) api_key_input lang_data model_data
      = SaveAction.accept (getSettings api_key_input lang_data model_data) := by
  have h1' : ¬((getSettings api_key_input lang_data model_data).api_key = "") := h1
  have h2' : (getSettings api_key_input lang_data model_data).api_key
      = dialogInitialKey opened_key := h2
  simp only [onSaveClicked]
  rw [if_neg h1', if_pos h2', if_pos h1']

/-- Claim C9 witness: same key, different language and model, accepted
without validation. -/
theorem C9_same_key_accepts_witness :
    onSaveClicked (dialogInitialKey "abc-key") " abc-key " (some "de") (some "gemini-1.5-pro")
      = SaveAction.accept (getSettings " abc-key " (some "de") (some "gemini-1.5-pro")) :=
  C9_same_key_accepts "abc-key" " abc-key " (some "de") (some "gemini-1.5-pro")
    (by decide) (by decide)

/-- Claim C10: `from_dict` is a left inverse of `to_dict` for both
`AppConfig` and `UserSettings`; applied to `None` or a dict with the keys
missing it yields the documented defaults, so `load_config` returns the
default configuration on missing or corrupt data. -/
theorem C10_config_roundtrip (c : AppConfig) (s : UserSettings) :
    AppConfig.fromDict (some c.toDict) = c
    ∧ UserSettings.fromDict (some s.toDict) = s
    ∧ AppConfig.fromDict none = defaultAppConfig
    ∧ AppConfig.fromDict (some { api_key := none, settings := none }) = defaultAppConfig
    ∧ UserSettings.fromDict (some { default_language := none, model_name := none })
        = defaultUserSettings
    ∧ loadConfig none = defaultAppConfig
    ∧ defaultAppConfig =
        { api_key := "",
          settings := { default_language := "en", model_name := "gemini-2.5-flash" } } :=
  ⟨rfl, rfl, rfl, rfl, rfl, rfl, rfl⟩

end WriteIQ
